import Mathlib

/-!
Shallow embedding of the MeksTaskManager web client, covering the session
manager (authContext), the auth pages (login, sign-up), and the dashboard
task-submission and profile-loading flows. The asynchronous network calls
are modelled by passing the outcome of the awaited request as an explicit
argument; browser localStorage is modelled as explicit record fields.
-/

namespace MTM

/-- A transient user-visible status message, as held in dashboard state. -/
structure StatusMessage where
  text : String
  isError : Bool
deriving Repr, DecidableEq

/-- The task form data collected by the NewTask component:
title, description, dueDate, priority (strings, as in the JS state). -/
structure TaskDraft where
  title : String
  description : String
  dueDate : String
  priority : String
deriving Repr, DecidableEq

/-- A task as stored: the draft fields plus an identifier.
For ephemeral tasks the id is the Date.now() timestamp (a number);
for remote tasks it is whatever the server assigned. -/
structure Task where
  title : String
  description : String
  dueDate : String
  priority : String
  id : Nat
deriving Repr, DecidableEq

/-- JavaScript string-or-absent coalescing x || fallback: both the empty
string and an absent value are falsy and select the fallback. -/
def jsOrStr (v : Option String) (fallback : String) : String :=
  match v with
  | some s => if s = "" then fallback else s
  | none => fallback

/-- JavaScript numeric coalescing x || fallback: 0 and absence are falsy. -/
def jsOrNat (v : Option Nat) (fallback : Nat) : Nat :=
  match v with
  | some n => if n = 0 then fallback else n
  | none => fallback

/-- JavaScript String.prototype.trim: strips leading and trailing
whitespace. -/
def jsTrim (s : String) : String :=
  String.mk (((s.data.dropWhile Char.isWhitespace).reverse.dropWhile
    Char.isWhitespace).reverse)

/-- Escape one character the way JSON.stringify escapes string contents
(backslash and double quote get a backslash; other characters unchanged;
control-character escapes are not needed for the identifiers modelled here). -/
def escapeChars : List Char → List Char
  | [] => []
  | c :: cs =>
      (if c = '\\' then ['\\', '\\']
       else if c = '"' then ['\\', '"']
       else [c]) ++ escapeChars cs

/-- JSON.stringify applied to a string value: the escaped contents wrapped
in double quotes. -/
def jsonStringifyStr (s : String) : String :=
  String.mk ('"' :: (escapeChars s.data ++ ['"']))

namespace AuthCtx

/-- The localStorage slice used by the session manager: the userId and
token keys, each either absent (getItem returns null) or a string. -/
structure TokenStore where
  userId : Option String
  token : Option String
deriving Repr, DecidableEq

/-- The in-memory React state of AuthProvider: userId (useState(null)),
token (useState two-quoted empty string sentinel for absence). -/
structure Session where
  userId : Option String
  token : String
deriving Repr, DecidableEq

/-- The initial AuthProvider state: userId null, token empty. -/
def initialSession : Session := { userId := none, token := "" }

/-- The whole session-manager state: persisted token store plus the
in-memory session. -/
structure AuthState where
  store : TokenStore
  sess : Session
deriving Repr, DecidableEq

/-- The body of a successful login response: response.data destructured
as userId, token, message. -/
structure LoginData where
  userId : String
  token : String
  message : String
deriving Repr, DecidableEq

/-- Outcome of the awaited api.post call inside login: either the promise
resolves with a status and data, or it rejects; a rejection carries the
optional err.response.status and err.response.data.message. -/
inductive NetOutcome where
  | ok (status : Nat) (data : LoginData)
  | err (respStatus : Option Nat) (respMessage : Option String)
deriving Repr, DecidableEq

/-- The object literal returned by authContext login and logout:
a status and a message (and nothing else — in particular no data field). -/
structure LoginResult where
  status : Nat
  message : String
deriving Repr, DecidableEq

/-- The login form data: username and password. -/
structure Credentials where
  username : String
  password : String
deriving Repr, DecidableEq

/-- The rehydration effect in AuthProvider's useEffect: reads the two
localStorage keys; if both are truthy (present and non-empty), sets the
in-memory userId to JSON.stringify of the stored string and the token to
the stored token; otherwise leaves the session as it was. -/
def getData (store : TokenStore) (sess : Session) : Session :=
  match store.userId, store.token with
  | some u, some t =>
      if u ≠ "" ∧ t ≠ "" then
        { userId := some (jsonStringifyStr u), token := t }
      else sess
  | _, _ => sess

/-- Rehydration as a state transformer: it never writes to the store. -/
def rehydrate (st : AuthState) : AuthState :=
  { st with sess := getData st.store st.sess }

/-- authContext login: null postData yields a 404 validation result with
no request; otherwise the awaited post outcome is inspected. Status 200
persists JSON.stringify(userId) and the token to localStorage, sets the
in-memory session to the raw userId and token, and returns the status and
server message. Any other resolved status returns the status and
data.message (or an Unknown response fallback) without touching state.
A rejection returns err.response.status-or-500 and a fallback message,
also without touching state. -/
def login (st : AuthState) (postData : Option Credentials) (net : NetOutcome) :
    AuthState × LoginResult :=
  match postData with
  | none => (st, { status := 404, message := "ValueError: Invalid PostData Values" })
  | some _ =>
    match net with
    | .ok status data =>
        if status = 200 then
          ({ store := { userId := some (jsonStringifyStr data.userId),
                        token := some data.token },
             sess := { userId := some data.userId, token := data.token } },
           { status := status, message := data.message })
        else
          (st, { status := status,
                 message := jsOrStr (some data.message) "Unknown response" })
    | .err s m =>
        (st, { status := jsOrNat s 500,
               message := jsOrStr m "An error occurred during login" })

/-- authContext logout: removes both localStorage keys, resets the
in-memory session, and returns a fixed 201 result. -/
def logout (_st : AuthState) : AuthState × LoginResult :=
  ({ store := { userId := none, token := none }, sess := initialSession },
   { status := 201, message := "User Logged Out Successfully" })

/-- The specification's Session invariant on the in-memory state: userId
and token are both present or both absent (the empty string being the
absent sentinel the code uses for the token). -/
def sessionInv (s : Session) : Prop :=
  s.userId.isSome ↔ s.token ≠ ""

/-- The same invariant on the persisted store: the userId and token keys
are both set or both removed. -/
def storeInv (st : TokenStore) : Prop :=
  st.userId.isSome ↔ st.token.isSome

/-- The invariant for the whole session-manager state. -/
def authInv (st : AuthState) : Prop :=
  sessionInv st.sess ∧ storeInv st.store

end AuthCtx

/-- A dynamic JavaScript value, as far as the auth pages inspect one:
undefined, a number, a string, or an object with named fields. -/
inductive JsVal where
  | jsUndefined
  | num (n : Nat)
  | str (s : String)
  | obj (fields : List (String × JsVal))

/-- JavaScript property access v.k: on an object it yields the field or
undefined when missing; on a number or string it yields undefined for the
fields used here; on undefined it throws a TypeError. -/
def JsVal.getProp : JsVal → String → Except Unit JsVal
  | .obj fs, k =>
      match fs.find? (fun p => p.1 = k) with
      | some p => .ok p.2
      | none => .ok .jsUndefined
  | .jsUndefined, _ => .error ()
  | _, _ => .ok .jsUndefined

/-- Strict numeric comparison v === n for the status checks. -/
def JsVal.isNum : JsVal → Nat → Bool
  | .num m, n => m = n
  | _, _ => false

/-- String coercion of the value interpolated into the message display. -/
def JsVal.asString : JsVal → String
  | .str s => s
  | .num n => toString n
  | .jsUndefined => "undefined"
  | .obj _ => "[object Object]"

/-- The object literal that authContext login returns, as the dynamic
value the login page receives: fields status and message only. -/
def loginResultToJs (r : AuthCtx.LoginResult) : JsVal :=
  .obj [("status", .num r.status), ("message", .str r.message)]

/-- An axios-style resolved response as a dynamic value: fields status
and data, with data carrying a message field. -/
def axiosRespToJs (status : Nat) (message : String) : JsVal :=
  .obj [("status", .num status), ("data", .obj [("message", .str message)])]

/-- What an auth page submission displays and schedules: the result text,
whether it is shown as an error, the delay after which the message state
is cleared, and the route navigated to when the clear timer fires. -/
structure AuthFormEffect where
  text : String
  isError : Bool
  clearDelayMs : Nat
  redirectTo : Option String
deriving Repr, DecidableEq

namespace LoginPage

/-- login.js handleErrorSuccess: success shows the message and after
3000 ms clears it and navigates to the root route; an error shows the
message and clears it after 5000 ms with no navigation. -/
def handleErrorSuccess (message : String) (error : Bool) : AuthFormEffect :=
  if !error then
    { text := message, isError := false, clearDelayMs := 3000, redirectTo := some "/" }
  else
    { text := message, isError := true, clearDelayMs := 5000, redirectTo := none }

/-- The try block of login.js handleSubmit, over the awaited login result:
status 200 reads response.data.message and reports success; status 500
reads response.message and reports an error; any other status reads
response.data.message and reports an error. A thrown TypeError (property
access on undefined) escapes as the exception. -/
def trySubmitBody (response : JsVal) : Except Unit AuthFormEffect := do
  let status ← response.getProp "status"
  if status.isNum 200 then
    let d ← response.getProp "data"
    let m ← d.getProp "message"
    pure (handleErrorSuccess m.asString false)
  else if status.isNum 500 then
    let m ← response.getProp "message"
    pure (handleErrorSuccess m.asString true)
  else
    let d ← response.getProp "data"
    let m ← d.getProp "message"
    pure (handleErrorSuccess m.asString true)

/-- login.js handleSubmit: empty (after trim) username or password short
circuits to a local validation error with no network call; otherwise the
session manager's login is awaited and its result inspected, any throw
landing in the catch with its fallback text. The boolean records whether
the network-backed login call was reached. -/
def handleSubmit (loginData : AuthCtx.Credentials) (response : JsVal) :
    Bool × AuthFormEffect :=
  if jsTrim loginData.username = "" ∨ jsTrim loginData.password = "" then
    (false, handleErrorSuccess "All Inputs Are Required!" true)
  else
    (true,
      match trySubmitBody response with
      | .ok eff => eff
      | .error _ => handleErrorSuccess "An error occurred during signup" true)

end LoginPage

/-- The sign-up form data held by signUp.js. -/
structure SignUpData where
  username : String
  email : String
  firstName : String
  lastName : String
  password : String
  role : String
  phoneNumber : String
deriving Repr, DecidableEq

namespace SignUpPage

/-- signUp.js handleErrorSuccess: like the login page's, but the success
timer navigates to the login route. -/
def handleErrorSuccess (message : String) (error : Bool) : AuthFormEffect :=
  if !error then
    { text := message, isError := false, clearDelayMs := 3000,
      redirectTo := some "/auth/login" }
  else
    { text := message, isError := true, clearDelayMs := 5000, redirectTo := none }

/-- The try block of signUp.js handleSubmit over the awaited api.post
response, mirroring the login page's status dispatch. -/
def trySubmitBody (response : JsVal) : Except Unit AuthFormEffect := do
  let status ← response.getProp "status"
  if status.isNum 200 then
    let d ← response.getProp "data"
    let m ← d.getProp "message"
    pure (handleErrorSuccess m.asString false)
  else if status.isNum 500 then
    let m ← response.getProp "message"
    pure (handleErrorSuccess m.asString true)
  else
    let d ← response.getProp "data"
    let m ← d.getProp "message"
    pure (handleErrorSuccess m.asString true)

/-- signUp.js handleSubmit: an empty (after trim) username, email,
password or confirmation short circuits to All Inputs Are Required!, and
a password differing from its confirmation to Passwords Do Not Match!,
both with no network call; otherwise the registration request is issued
and its response inspected, throws landing in the catch. The boolean
records whether the network call was reached. -/
def handleSubmit (newData : SignUpData) (confirmPassword : String)
    (response : JsVal) : Bool × AuthFormEffect :=
  if jsTrim newData.username = "" ∨ jsTrim newData.email = "" ∨
     jsTrim newData.password = "" ∨ jsTrim confirmPassword = "" then
    (false, handleErrorSuccess "All Inputs Are Required!" true)
  else if newData.password ≠ confirmPassword then
    (false, handleErrorSuccess "Passwords Do Not Match!" true)
  else
    (true,
      match trySubmitBody response with
      | .ok eff => eff
      | .error _ => handleErrorSuccess "An error occurred during signup" true)

end SignUpPage

namespace Dashboard

/-- The dashboard's userData state: username, memberSince, profile image
(null initially, a concrete icon once set), and the displayed task list. -/
structure UserData where
  username : String
  memberSince : String
  profileImage : Option String
  tasks : List Task
deriving Repr, DecidableEq

/-- The bundled application icon used as the placeholder profile image. -/
def AppIcon : String := "original_no_bg.png"

/-- The dashboard component state: userData, the popup open flag, the
status message, and the temp_unsaved_tasks localStorage entry (absent, or
the parsed task list that was last written). -/
structure DashState where
  userData : UserData
  isOpen : Bool
  message : StatusMessage
  tempStore : Option (List Task)
deriving Repr, DecidableEq

/-- Outcome of the awaited api.post to /tasks: a resolved response with a
status and a data.task payload, or a rejection. -/
inductive TaskNet where
  | ok (status : Nat) (task : Task)
  | err
deriving Repr, DecidableEq

/-- The timers and modal effects of one handleTaskSubmit run: whether the
modal was closed immediately (cancellation), the scheduled delay after
which the message is reset, and whether that timer also closes the modal. -/
structure SubmitEffect where
  closedNow : Bool
  scheduledClearMs : Option Nat
  closesAtClear : Bool
deriving Repr, DecidableEq

/-- dashboard.js handleTaskSubmit. A null draft closes the modal and does
nothing else. With a userId, the create request's resolved status 201
sets the success message and appends response.data.task to the displayed
list; any other resolved status changes nothing; either way a 3000 ms
timer is scheduled that clears the message and closes the modal. A
rejection sets the Failed to create task message (the userId being
truthy) and schedules a 3000 ms message clear. Without a userId, the
draft plus id Date.now() is appended to the parsed temp_unsaved_tasks
list (empty when absent), written back, mirrored into the displayed
list, and the saved-temporarily message is set with the 3000 ms timer. -/
def handleTaskSubmit (userId : Option String) (st : DashState)
    (taskData : Option TaskDraft) (net : TaskNet) (now : Nat) :
    DashState × SubmitEffect :=
  match taskData with
  | none =>
      ({ st with isOpen := false },
       { closedNow := true, scheduledClearMs := none, closesAtClear := false })
  | some d =>
    match userId with
    | some _ =>
      match net with
      | .ok status task =>
          let st1 :=
            if status = 201 then
              { st with
                message := { text := "Task created successfully!", isError := false },
                userData := { st.userData with tasks := st.userData.tasks ++ [task] } }
            else st
          (st1, { closedNow := false, scheduledClearMs := some 3000,
                  closesAtClear := true })
      | .err =>
          ({ st with
             message := { text := "Failed to create task. Please try again.",
                          isError := true } },
           { closedNow := false, scheduledClearMs := some 3000,
             closesAtClear := false })
    | none =>
        let newTask : Task :=
          { title := d.title, description := d.description,
            dueDate := d.dueDate, priority := d.priority, id := now }
        let existingTasks := st.tempStore.getD []
        let updatedTasks := existingTasks ++ [newTask]
        ({ st with
           tempStore := some updatedTasks,
           message := { text := "Task saved temporarily!", isError := false },
           userData := { st.userData with tasks := updatedTasks } },
         { closedNow := false, scheduledClearMs := some 3000,
           closesAtClear := true })

/-- The persisted ephemeral list as the code reads it:
JSON.parse(localStorage.getItem(TEMP_TASKS_KEY)) || []. -/
def storeList (st : DashState) : List Task :=
  st.tempStore.getD []

/-- A sequence of anonymous submissions within one session: each entry is
the submitted draft together with the Date.now() value observed at that
submission. The network argument is irrelevant on this branch. -/
def submitAll (st : DashState) (subs : List (TaskDraft × Nat)) : DashState :=
  subs.foldl (fun s p => (handleTaskSubmit none s (some p.1) TaskNet.err p.2).1) st

/-- The user payload of a resolved GET /users/me response. -/
structure ProfileUser where
  username : String
  memberSince : String
  profileIcon : String
  savedTasks : Option (List Task)
deriving Repr, DecidableEq

/-- Outcome of the awaited profile fetch: resolved with a status and a
data.user payload, or rejected. -/
inductive ProfileNet where
  | ok (status : Nat) (user : ProfileUser)
  | err
deriving Repr, DecidableEq

/-- dashboard.js loadData on mount. With a userId the profile request is
issued: a resolved 200 populates userData from the server fields (with
savedTasks defaulting to empty); any other resolved status changes
nothing; a rejection overwrites every field with the placeholder. Without
a userId the placeholder is set with no request. The boolean records
whether a network request was issued. -/
def loadData (userId : Option String) (prev : UserData) (net : ProfileNet) :
    Bool × UserData :=
  match userId with
  | some _ =>
      (true,
        match net with
        | .ok status user =>
            if status = 200 then
              { username := user.username, memberSince := user.memberSince,
                profileImage := some user.profileIcon,
                tasks := user.savedTasks.getD [] }
            else prev
        | .err =>
            { prev with username := "Unknown User", memberSince := "9999",
                        profileImage := some AppIcon, tasks := [] })
  | none =>
      (false,
        { prev with username := "Unknown User", memberSince := "9999",
                    profileImage := some AppIcon, tasks := [] })

/-- The placeholder profile of the specification. -/
def placeholderProfile : UserData :=
  { username := "Unknown User", memberSince := "9999",
    profileImage := some AppIcon, tasks := [] }

end Dashboard

/-! Helper lemmas. -/

/-- Escaping never shortens a character list. -/
theorem escapeChars_length_le (l : List Char) : l.length ≤ (escapeChars l).length := by
  induction l with
  | nil => simp [escapeChars]
  | cons c cs ih =>
      have h1 : 1 ≤ (if c = '\\' then ['\\', '\\']
          else if c = '"' then ['\\', '"'] else [c]).length := by
        split_ifs <;> simp
      simp only [escapeChars, List.length_append, List.length_cons]
      omega

/-- JSON.stringify of a string is at least two characters longer than it. -/
theorem jsonStringifyStr_length (s : String) :
    s.data.length + 2 ≤ (jsonStringifyStr s).data.length := by
  show s.data.length + 2 ≤ ('"' :: (escapeChars s.data ++ ['"'])).length
  have := escapeChars_length_le s.data
  simp only [List.length_cons, List.length_append, List.length_singleton]
  omega

/-- JSON.stringify of a string is never the empty string. -/
theorem jsonStringifyStr_ne_empty (s : String) : jsonStringifyStr s ≠ "" := by
  intro h
  have hd : (jsonStringifyStr s).data = ("" : String).data := by rw [h]
  simp [jsonStringifyStr] at hd

/-- Applying JSON.stringify twice never returns to the original string. -/
theorem jsonStringifyStr_twice_ne (s : String) :
    jsonStringifyStr (jsonStringifyStr s) ≠ s := by
  intro h
  have h1 := jsonStringifyStr_length s
  have h2 := jsonStringifyStr_length (jsonStringifyStr s)
  rw [h] at h2
  omega

/-- JavaScript coalescing with a non-empty fallback yields a non-empty
string. -/
theorem jsOrStr_ne_empty (v : Option String) (fb : String) (h : fb ≠ "") :
    jsOrStr v fb ≠ "" := by
  cases v with
  | none => simpa [jsOrStr]
  | some s =>
      by_cases hs : s = "" <;> simp [jsOrStr, hs, h]

/-! Claim theorems. -/

/-- C3: session rehydration does not round-trip the userId set by login.
A successful login stores JSON.stringify(u) and sets the in-memory userId
to u, while rehydration sets the in-memory userId to JSON.stringify of the
stored string; hence for every userId u persisted by a successful login,
the rehydrated in-memory userId differs from u. -/
theorem rehydration_userId_differs_from_login (st : AuthCtx.AuthState)
    (pd : AuthCtx.Credentials) (data : AuthCtx.LoginData) :
    (AuthCtx.getData (AuthCtx.login st (some pd)
        (AuthCtx.NetOutcome.ok 200 data)).1.store AuthCtx.initialSession).userId
      ≠ some data.userId := by
  have hu := jsonStringifyStr_ne_empty data.userId
  by_cases ht : data.token = ""
  · simp [AuthCtx.login, AuthCtx.getData, ht, AuthCtx.initialSession]
  · simp [AuthCtx.login, AuthCtx.getData, hu, ht, AuthCtx.initialSession]
    exact jsonStringifyStr_twice_ne data.userId

/-- C5: the both-present-or-both-absent invariant on userId and token
holds in the initial state and is preserved, for the in-memory session
and for the persisted token store, by rehydration, by successful login
(whose response carries a non-empty token), by failed login (non-200
status or rejection), and by logout. -/
theorem session_invariant_preserved :
    AuthCtx.sessionInv AuthCtx.initialSession ∧
    (∀ st : AuthCtx.AuthState, AuthCtx.authInv st →
        AuthCtx.authInv (AuthCtx.rehydrate st)) ∧
    (∀ (st : AuthCtx.AuthState) (pd : AuthCtx.Credentials)
        (data : AuthCtx.LoginData), data.token ≠ "" →
        AuthCtx.authInv (AuthCtx.login st (some pd)
          (AuthCtx.NetOutcome.ok 200 data)).1) ∧
    (∀ (st : AuthCtx.AuthState) (pd : AuthCtx.Credentials) (status : Nat)
        (data : AuthCtx.LoginData), status ≠ 200 → AuthCtx.authInv st →
        AuthCtx.authInv (AuthCtx.login st (some pd)
          (AuthCtx.NetOutcome.ok status data)).1) ∧
    (∀ (st : AuthCtx.AuthState) (pd : AuthCtx.Credentials) (s : Option Nat)
        (m : Option String), AuthCtx.authInv st →
        AuthCtx.authInv (AuthCtx.login st (some pd)
          (AuthCtx.NetOutcome.err s m)).1) ∧
    (∀ st : AuthCtx.AuthState, AuthCtx.authInv (AuthCtx.logout st).1) := by
  refine ⟨by simp [AuthCtx.sessionInv, AuthCtx.initialSession], ?_, ?_, ?_, ?_, ?_⟩
  · intro st h
    obtain ⟨hs, hst⟩ := h
    refine ⟨?_, hst⟩
    simp only [AuthCtx.rehydrate, AuthCtx.getData]
    rcases hu : st.store.userId with _ | u <;> rcases htk : st.store.token with _ | t
    · exact hs
    · exact hs
    · exact hs
    · show AuthCtx.sessionInv (if u ≠ "" ∧ t ≠ "" then
          { userId := some (jsonStringifyStr u), token := t } else st.sess)
      split_ifs with hcond
      · simp [AuthCtx.sessionInv, hcond.2]
      · exact hs
  · intro st pd data htok
    exact ⟨by simp [AuthCtx.login, AuthCtx.sessionInv, htok],
           by simp [AuthCtx.login, AuthCtx.storeInv]⟩
  · intro st pd status data hstatus h
    simpa [AuthCtx.login, hstatus] using h
  · intro st pd s m h
    simpa [AuthCtx.login] using h
  · intro st
    exact ⟨by simp [AuthCtx.logout, AuthCtx.sessionInv, AuthCtx.initialSession],
           by simp [AuthCtx.logout, AuthCtx.storeInv]⟩

/-- Witness for C5: the login-success part at a concrete state and
response. -/
theorem session_invariant_preserved_witness :
    AuthCtx.authInv (AuthCtx.login
      { store := { userId := none, token := none }, sess := AuthCtx.initialSession }
      (some { username := "alice", password := "pw" })
      (AuthCtx.NetOutcome.ok 200
        { userId := "u1", token := "tok123", message := "welcome" })).1 :=
  session_invariant_preserved.2.2.1 _ _ _ (by decide)

/-- C6: a login whose response resolves with a non-200 status, or whose
request rejects, returns a result carrying the status and a non-empty
message, and mutates neither the persisted token store nor the in-memory
session. -/
theorem login_failure_mutates_nothing :
    (∀ (st : AuthCtx.AuthState) (pd : AuthCtx.Credentials) (status : Nat)
        (data : AuthCtx.LoginData), status ≠ 200 →
        (AuthCtx.login st (some pd) (AuthCtx.NetOutcome.ok status data)).1 = st ∧
        (AuthCtx.login st (some pd) (AuthCtx.NetOutcome.ok status data)).2.status
          = status ∧
        (AuthCtx.login st (some pd) (AuthCtx.NetOutcome.ok status data)).2.message
          ≠ "") ∧
    (∀ (st : AuthCtx.AuthState) (pd : AuthCtx.Credentials) (s : Option Nat)
        (m : Option String),
        (AuthCtx.login st (some pd) (AuthCtx.NetOutcome.err s m)).1 = st ∧
        (AuthCtx.login st (some pd) (AuthCtx.NetOutcome.err s m)).2.message ≠ "") := by
  constructor
  · intro st pd status data hstatus
    refine ⟨by simp [AuthCtx.login, hstatus], by simp [AuthCtx.login, hstatus], ?_⟩
    have hmsg : (AuthCtx.login st (some pd)
        (AuthCtx.NetOutcome.ok status data)).2.message
        = jsOrStr (some data.message) "Unknown response" := by
      simp [AuthCtx.login, hstatus]
    rw [hmsg]
    exact jsOrStr_ne_empty (some data.message) "Unknown response" (by decide)
  · intro st pd s m
    refine ⟨by simp [AuthCtx.login], ?_⟩
    have hmsg : (AuthCtx.login st (some pd) (AuthCtx.NetOutcome.err s m)).2.message
        = jsOrStr m "An error occurred during login" := by
      simp [AuthCtx.login]
    rw [hmsg]
    exact jsOrStr_ne_empty m "An error occurred during login" (by decide)

/-- Witness for C6: a concrete 401 response and a concrete rejection. -/
theorem login_failure_mutates_nothing_witness :
    (AuthCtx.login
      { store := { userId := some "\"u1\"", token := some "tok" },
        sess := { userId := some "u1", token := "tok" } }
      (some { username := "alice", password := "pw" })
      (AuthCtx.NetOutcome.ok 401
        { userId := "", token := "", message := "bad credentials" })).1
      = { store := { userId := some "\"u1\"", token := some "tok" },
          sess := { userId := some "u1", token := "tok" } } :=
  (login_failure_mutates_nothing.1 _ _ 401 _ (by decide)).1

/-- C1 (failing behavior): when the session manager's login returns a
status-200 result, the login page's 200 branch reads response.data.message
although the result has no data field, so the property access throws and
the catch displays the generic signup error, cleared after 5000 ms with
no redirect — instead of the claimed success message with a 3000 ms
redirect to the root route. Shown here at non-empty credentials for every
state and every 200 response. -/
theorem login_page_status200_shows_error (st : AuthCtx.AuthState)
    (pd : AuthCtx.Credentials) (data : AuthCtx.LoginData) :
    LoginPage.handleSubmit { username := "alice", password := "pw" }
        (loginResultToJs (AuthCtx.login st (some pd)
          (AuthCtx.NetOutcome.ok 200 data)).2)
      = (true, { text := "An error occurred during signup", isError := true,
                 clearDelayMs := 5000, redirectTo := none }) := rfl

/-- C7: a login submission with an empty (after trimming) username or
password, and a sign-up submission with an empty (after trimming)
username, email, password or confirmation, or with a password differing
from its confirmation, issue no network call and surface a local
validation error message. -/
theorem local_validation_blocks_network :
    (∀ (d : AuthCtx.Credentials) (resp : JsVal),
        jsTrim d.username = "" ∨ jsTrim d.password = "" →
        LoginPage.handleSubmit d resp
          = (false, { text := "All Inputs Are Required!", isError := true,
                      clearDelayMs := 5000, redirectTo := none })) ∧
    (∀ (s : SignUpData) (conf : String) (resp : JsVal),
        jsTrim s.username = "" ∨ jsTrim s.email = "" ∨ jsTrim s.password = "" ∨
          jsTrim conf = "" →
        SignUpPage.handleSubmit s conf resp
          = (false, { text := "All Inputs Are Required!", isError := true,
                      clearDelayMs := 5000, redirectTo := none })) ∧
    (∀ (s : SignUpData) (conf : String) (resp : JsVal),
        s.password ≠ conf →
        (SignUpPage.handleSubmit s conf resp).1 = false ∧
        (SignUpPage.handleSubmit s conf resp).2.isError = true) := by
  refine ⟨?_, ?_, ?_⟩
  · intro d resp h
    simp [LoginPage.handleSubmit, h, LoginPage.handleErrorSuccess]
  · intro s conf resp h
    simp [SignUpPage.handleSubmit, h, SignUpPage.handleErrorSuccess]
  · intro s conf resp h
    by_cases hempty : jsTrim s.username = "" ∨ jsTrim s.email = "" ∨
        jsTrim s.password = "" ∨ jsTrim conf = ""
    · simp [SignUpPage.handleSubmit, hempty, SignUpPage.handleErrorSuccess]
    · simp [SignUpPage.handleSubmit, hempty, h, SignUpPage.handleErrorSuccess]

/-- Witness for C7: an all-empty login form and a password mismatch on an
otherwise filled sign-up form. -/
theorem local_validation_blocks_network_witness :
    LoginPage.handleSubmit { username := "", password := "" } JsVal.jsUndefined
      = (false, { text := "All Inputs Are Required!", isError := true,
                  clearDelayMs := 5000, redirectTo := none }) ∧
    (SignUpPage.handleSubmit
        { username := "alice", email := "a@b.c", firstName := "", lastName := "",
          password := "pw1", role := "user", phoneNumber := "" } "pw2"
        JsVal.jsUndefined).1 = false :=
  ⟨local_validation_blocks_network.1 _ JsVal.jsUndefined (Or.inl (by decide)),
   (local_validation_blocks_network.2.2 _ "pw2" JsVal.jsUndefined (by decide)).1⟩

/-- C2 counterexample: an authenticated submission whose create request
resolves with status 200 (not 201 and not a throw) leaves the dashboard
state completely unchanged — in particular the message is not set to the
claimed failure text. -/
theorem authenticated_status200_sets_no_failure_message :
    (Dashboard.handleTaskSubmit (some "u1")
        { userData := { username := "alice", memberSince := "2024",
                        profileImage := none, tasks := [] },
          isOpen := true, message := { text := "", isError := false },
          tempStore := none }
        (some { title := "Buy milk", description := "", dueDate := "",
                priority := "medium" })
        (Dashboard.TaskNet.ok 200
          { title := "Buy milk", description := "", dueDate := "",
            priority := "medium", id := 7 }) 0).1
      = { userData := { username := "alice", memberSince := "2024",
                        profileImage := none, tasks := [] },
          isOpen := true, message := { text := "", isError := false },
          tempStore := none } ∧
    ("" : String) ≠ "Failed to create task. Please try again." := by
  exact ⟨rfl, by decide⟩

/-- C2 as amended: an authenticated submission whose create request
throws enters Failure — the task list is unchanged and the message is set
to the claimed failure text with isError true — while a request that
resolves with a status other than 201 changes nothing at all (no failure
message, no list change). -/
theorem authenticated_failure_handling (uid : String)
    (st : Dashboard.DashState) (d : TaskDraft) (now : Nat) :
    ((Dashboard.handleTaskSubmit (some uid) st (some d)
        Dashboard.TaskNet.err now).1.message
      = { text := "Failed to create task. Please try again.", isError := true } ∧
     (Dashboard.handleTaskSubmit (some uid) st (some d)
        Dashboard.TaskNet.err now).1.userData.tasks = st.userData.tasks) ∧
    (∀ (status : Nat) (task : Task), status ≠ 201 →
        (Dashboard.handleTaskSubmit (some uid) st (some d)
          (Dashboard.TaskNet.ok status task) now).1 = st) := by
  refine ⟨⟨rfl, rfl⟩, ?_⟩
  intro status task hstatus
  simp [Dashboard.handleTaskSubmit, hstatus]

/-- Witness for C2 as amended: concrete throwing and status-200 runs. -/
theorem authenticated_failure_handling_witness :
    (Dashboard.handleTaskSubmit (some "u1")
        { userData := { username := "alice", memberSince := "2024",
                        profileImage := none, tasks := [] },
          isOpen := true, message := { text := "", isError := false },
          tempStore := none }
        (some { title := "Buy milk", description := "", dueDate := "",
                priority := "medium" })
        (Dashboard.TaskNet.ok 200
          { title := "x", description := "", dueDate := "",
            priority := "low", id := 3 }) 0).1
      = { userData := { username := "alice", memberSince := "2024",
                        profileImage := none, tasks := [] },
          isOpen := true, message := { text := "", isError := false },
          tempStore := none } :=
  (authenticated_failure_handling "u1" _ _ 0).2 200 _ (by decide)

/-- C4 counterexample: two anonymous submissions whose Date.now() values
coincide (same millisecond) are assigned the same identifier, so the
identifiers within the session are not pairwise distinct. -/
theorem anonymous_same_millisecond_duplicate_ids :
    (Dashboard.storeList (Dashboard.submitAll
        { userData := { username := "", memberSince := "",
                        profileImage := none, tasks := [] },
          isOpen := true, message := { text := "", isError := false },
          tempStore := none }
        [({ title := "a", description := "", dueDate := "", priority := "medium" }, 5),
         ({ title := "b", description := "", dueDate := "", priority := "low" }, 5)])).map
      Task.id = [5, 5] ∧
    ¬ ((Dashboard.storeList (Dashboard.submitAll
        { userData := { username := "", memberSince := "",
                        profileImage := none, tasks := [] },
          isOpen := true, message := { text := "", isError := false },
          tempStore := none }
        [({ title := "a", description := "", dueDate := "", priority := "medium" }, 5),
         ({ title := "b", description := "", dueDate := "", priority := "low" }, 5)])).map
      Task.id).Nodup := by
  exact ⟨rfl, by decide⟩

/-- Each anonymous submission rewrites the persisted ephemeral list to
the previous list plus the draft tagged with the observed timestamp. -/
theorem submitAll_storeList (st : Dashboard.DashState)
    (subs : List (TaskDraft × Nat)) :
    Dashboard.storeList (Dashboard.submitAll st subs)
      = Dashboard.storeList st ++ subs.map (fun p =>
          { title := p.1.title, description := p.1.description,
            dueDate := p.1.dueDate, priority := p.1.priority, id := p.2 }) := by
  induction subs generalizing st with
  | nil => simp [Dashboard.submitAll]
  | cons p ps ih =>
      have hstep : Dashboard.storeList ((Dashboard.handleTaskSubmit none st
          (some p.1) Dashboard.TaskNet.err p.2).1)
          = Dashboard.storeList st ++
            [{ title := p.1.title, description := p.1.description,
               dueDate := p.1.dueDate, priority := p.1.priority, id := p.2 }] := rfl
      calc Dashboard.storeList (Dashboard.submitAll st (p :: ps))
          = Dashboard.storeList (Dashboard.submitAll
              ((Dashboard.handleTaskSubmit none st (some p.1)
                Dashboard.TaskNet.err p.2).1) ps) := rfl
        _ = _ := by rw [ih, hstep, List.append_assoc]; rfl

/-- C4 as amended: every anonymous submission grows the persisted
ephemeral list by exactly one, and the identifiers assigned within a
session equal the observed Date.now() values, so they are pairwise
distinct whenever those timestamps are (but can collide when two
submissions share a millisecond). -/
theorem anonymous_submissions_grow_store (st : Dashboard.DashState)
    (subs : List (TaskDraft × Nat)) :
    (∀ (d : TaskDraft) (net : Dashboard.TaskNet) (now : Nat),
        (Dashboard.storeList ((Dashboard.handleTaskSubmit none st (some d)
            net now).1)).length = (Dashboard.storeList st).length + 1) ∧
    (((Dashboard.storeList (Dashboard.submitAll st subs)).drop
        (Dashboard.storeList st).length).map Task.id = subs.map Prod.snd) ∧
    ((subs.map Prod.snd).Nodup →
      (((Dashboard.storeList (Dashboard.submitAll st subs)).drop
          (Dashboard.storeList st).length).map Task.id).Nodup) := by
  have hids : ((Dashboard.storeList (Dashboard.submitAll st subs)).drop
      (Dashboard.storeList st).length).map Task.id = subs.map Prod.snd := by
    rw [submitAll_storeList, List.drop_left, List.map_map]
    rfl
  refine ⟨?_, hids, ?_⟩
  · intro d net now
    cases net <;> simp [Dashboard.handleTaskSubmit, Dashboard.storeList]
  · intro hnd
    rw [hids]
    exact hnd

/-- Witness for C4 as amended: two submissions one millisecond apart get
the distinct ids 1 and 2. -/
theorem anonymous_submissions_grow_store_witness :
    ((Dashboard.storeList (Dashboard.submitAll
        { userData := { username := "", memberSince := "",
                        profileImage := none, tasks := [] },
          isOpen := true, message := { text := "", isError := false },
          tempStore := none }
        [({ title := "a", description := "", dueDate := "", priority := "medium" }, 1),
         ({ title := "b", description := "", dueDate := "", priority := "low" }, 2)])).drop
      0).map Task.id |>.Nodup :=
  (anonymous_submissions_grow_store
    { userData := { username := "", memberSince := "",
                    profileImage := none, tasks := [] },
      isOpen := true, message := { text := "", isError := false },
      tempStore := none }
    [({ title := "a", description := "", dueDate := "", priority := "medium" }, 1),
     ({ title := "b", description := "", dueDate := "", priority := "low" }, 2)]).2.2
    (by decide)

/-- C8: when the profile fetch of an authenticated mount rejects, the
displayed profile becomes exactly the placeholder (Unknown User, 9999,
the bundled icon, empty task list); an unauthenticated mount sets the
same placeholder and issues no network request. -/
theorem placeholder_profile_on_failure_or_no_session :
    (∀ (uid : String) (prev : Dashboard.UserData),
        Dashboard.loadData (some uid) prev Dashboard.ProfileNet.err
          = (true, Dashboard.placeholderProfile)) ∧
    (∀ (prev : Dashboard.UserData) (net : Dashboard.ProfileNet),
        Dashboard.loadData none prev net = (false, Dashboard.placeholderProfile)) := by
  constructor
  · intro uid prev
    rfl
  · intro prev net
    rfl

/-- C9: the task submission flow schedules a 3000 ms message clear in
both its success (status 201) and its failure (thrown request) branch,
while both auth forms clear success messages after 3000 ms and error
messages after 5000 ms. -/
theorem message_clear_timing_asymmetry :
    (∀ (uid : String) (st : Dashboard.DashState) (d : TaskDraft) (task : Task)
        (now : Nat),
        ((Dashboard.handleTaskSubmit (some uid) st (some d)
            (Dashboard.TaskNet.ok 201 task) now).2).scheduledClearMs = some 3000) ∧
    (∀ (uid : String) (st : Dashboard.DashState) (d : TaskDraft) (now : Nat),
        ((Dashboard.handleTaskSubmit (some uid) st (some d)
            Dashboard.TaskNet.err now).2).scheduledClearMs = some 3000) ∧
    (∀ m : String, (LoginPage.handleErrorSuccess m false).clearDelayMs = 3000) ∧
    (∀ m : String, (LoginPage.handleErrorSuccess m true).clearDelayMs = 5000) ∧
    (∀ m : String, (SignUpPage.handleErrorSuccess m false).clearDelayMs = 3000) ∧
    (∀ m : String, (SignUpPage.handleErrorSuccess m true).clearDelayMs = 5000) := by
  exact ⟨fun _ _ _ _ _ => rfl, fun _ _ _ _ => rfl, fun _ => rfl, fun _ => rfl,
         fun _ => rfl, fun _ => rfl⟩

/-- C10: a draft appended to the ephemeral store by an anonymous
submission is, when the persisted list is read back immediately, its
final element: equal to the draft field-for-field, differing only in the
generated identifier (the observed Date.now() value). -/
theorem ephemeral_append_roundtrip (st : Dashboard.DashState) (d : TaskDraft)
    (net : Dashboard.TaskNet) (now : Nat) :
    (Dashboard.storeList ((Dashboard.handleTaskSubmit none st (some d)
        net now).1)).getLast?
      = some { title := d.title, description := d.description,
               dueDate := d.dueDate, priority := d.priority, id := now } := by
  cases net <;>
    exact List.getLast?_concat _

end MTM
